import Mathlib

/- Shallow embedding of the lox-interpreter repository (src/src/*.rs): scanner,
parser, evaluator, environment chain and driver, with theorems checking the
specification's claims against them.

Modelling conventions, applied throughout:
* `f64` number payloads are modelled as `Rat` (exact rationals). The concrete
  programs examined here use small integer literals only, so no theorem
  depends on floating-point rounding, NaN or infinities.
* `usize` arithmetic that can underflow is modelled explicitly: see
  `usize_wrap_pred` (wrap-around subtraction by one, as in a release build;
  a debug build would already abort at the subtraction).
* `Rc<RefCell<Environment>>` handles are modelled as indices into a heap of
  environments (`InterpState.envs`); interior mutation is mutation of the
  heap entry at the index, and cloning a handle copies the index.
* A Rust panic (an `unreachable!()` or a failed `unwrap()`) is the outcome
  `Failure.crash`; it unwinds everything, unlike a `LoxError` result.
* Every loop or recursion of the source gets explicit fuel; exhausting it
  gives the artificial outcome `Failure.fuelOut`, which no theorem below
  ever equates with normal behaviour.
* Byte offsets and character offsets coincide for the ASCII sources
  considered here (the Rust mixes `chars().nth` indexing with byte slicing).
* Writes to the diagnostic sink (stderr) and to stdout other than the
  `print` statement are not modelled; `print` appends the printed value to
  `InterpState.output`. -/

namespace LoxSpec

/-- Token kinds, from src/src/token_type.rs. -/
inductive TokenType where
  | LeftParen | RightParen | LeftBrace | RightBrace | Comma | Dot | Minus | Plus
  | Semicolon | Slash | Star
  | Bang | BangEqual | Equal | EqualEqual | Greater | GreaterEqual | Less | LessEqual
  | Identifier | String | Number | False | True | Nil
  | And | Class | Else | Fun | For | If | Or | Print | Return | Super | This | Var | While
  | EOF
deriving DecidableEq

/-- The literal payload a token can carry. The Rust `Token` reuses the runtime
`Literal` enum for this field, but the scanner only ever stores `Number` and
`String` payloads in tokens, so the payload is modelled by this restricted
type (breaking an otherwise cyclic type dependency Token/Literal/Stmt). -/
inductive ScanLit where
  | number (value : Rat)
  | string (value : String)
deriving DecidableEq

/-- src/src/token.rs `Token`. -/
structure Token where
  token_type : TokenType
  lexeme : String
  literal : Option ScanLit
  line : Nat
deriving DecidableEq

mutual

/-- src/src/literal.rs `Literal`: the runtime value. -/
inductive Literal where
  | number (v : Rat)
  | string (v : String)
  | bool (v : Bool)
  | function (f : Callable)
  | nil
  | nilImplicit

/-- The two implementors of the `LoxCallable` trait: the native `Clock`
(src/src/native_functions.rs) and `LoxFunction` (src/src/function.rs), whose
fields are name, params and body only (it stores no closure environment). -/
inductive Callable where
  | clock
  | user (name : Token) (params : List Token) (body : List Stmt)

/-- src/src/expr.rs `Expr` (each XxxExpr struct flattened into a constructor
with the same fields; `Variable` is `varExpr` since `variable` is reserved). -/
inductive Expr where
  | assign (name : Token) (value : Expr)
  | binary (left : Expr) (operator : Token) (right : Expr)
  | call (callee : Expr) (paren : Token) (arguments : List Expr)
  | grouping (expression : Expr)
  | literal (value : Option Literal)
  | logical (left : Expr) (operator : Token) (right : Expr)
  | unary (operator : Token) (right : Expr)
  | varExpr (name : Token)

/-- src/src/stmt.rs `Stmt` (each XxxStmt struct flattened into a constructor
with the same fields). -/
inductive Stmt where
  | block (statements : List Stmt)
  | expression (expr : Expr)
  | function (name : Token) (params : List Token) (body : List Stmt)
  | ifStmt (condition : Expr) (then_branch : Stmt) (else_branch : Option Stmt)
  | printStmt (expr : Expr)
  | returnStmt (keyword : Token) (value : Option Expr)
  | varStmt (name : Token) (initializer : Option Expr)
  | whileStmt (condition : Expr) (body : Stmt)

end

/-- src/src/error_reporter.rs `LoxError`. The constructor functions there also
write a report to stderr (not modelled). -/
inductive LoxError where
  | scanError (line : Nat) (message : String)
  | parseError (token : Token) (message : String)
  | runtimeError (token : Token) (message : String)
  | resolverError (token : Token) (message : String)
  | systemError (message : String)
  | returnValue (value : Literal)

/-- How a computation of the embedded program can stop abnormally: a
`LoxError` value travelling through `Result`, a Rust panic, or exhaustion of
the artificial recursion fuel. -/
inductive Failure where
  | err (e : LoxError)
  | crash (message : String)
  | fuelOut

/-- State-threading monad for the embedded stateful code: the state survives
an error (as the borrowed `self` does in Rust), and `Failure` short-circuits
the rest of the computation. -/
def PM (σ : Type) (α : Type) : Type := σ → Except Failure α × σ

instance : Monad (PM σ) where
  pure a := fun s => (Except.ok a, s)
  bind x f := fun s =>
    match x s with
    | (Except.ok a, s2) => f a s2
    | (Except.error e, s2) => (Except.error e, s2)

def PM.get : PM σ σ := fun s => (Except.ok s, s)

def PM.set (s2 : σ) : PM σ Unit := fun _ => (Except.ok (), s2)

def PM.throw (f : Failure) : PM σ α := fun s => (Except.error f, s)

/-- Capture a failure (the Rust `match result` / `if result.is_err()` idiom);
the handler decides what to rethrow. Note a Rust panic is not catchable this
way; callers below always rethrow `Failure.crash` and `Failure.fuelOut`. -/
def PM.tryCatch (x : PM σ α) (h : Failure → PM σ α) : PM σ α := fun s =>
  match x s with
  | (Except.error f, s2) => h f s2
  | (Except.ok a, s2) => (Except.ok a, s2)

/-- Whether a failure is an `Err(LoxError)` (as opposed to a panic or fuel
exhaustion). -/
def failure_is_err : Failure → Bool
  | Failure.err _ => true
  | _ => false

/-- Whether an outcome is an `Err(LoxError)` result. -/
def is_err_result : Except Failure α → Bool
  | Except.error f => failure_is_err f
  | _ => false

/-! ## Environment (src/src/environment.rs)

The `HashMap<String, Literal>` is modelled as an association list with
insert-replaces-existing semantics, and the `Rc<RefCell<_>>` handle as a
`Nat` index into the heap `InterpState.envs`. -/

/-- One environment record. -/
structure Env where
  enclosing : Option Nat
  values : List (String × Literal)

def values_insert (key : String) (value : Literal) :
    List (String × Literal) → List (String × Literal)
  | [] => [(key, value)]
  | (k, v) :: rest =>
    if k = key then (key, value) :: rest else (k, v) :: values_insert key value rest

def values_get (key : String) : List (String × Literal) → Option Literal
  | [] => none
  | (k, v) :: rest => if k = key then some v else values_get key rest

namespace Environment

def new : Env := { enclosing := none, values := [] }

def new_with_enclosing (enclosing : Nat) : Env :=
  { enclosing := some enclosing, values := [] }

/-- `Environment::define`: insert into this scope. -/
def define (e : Env) (name : String) (value : Literal) : Env :=
  { e with values := values_insert name value e.values }

/-- `Environment::get`: walk the parent chain outward. The fuel only bounds
the chain walk; parents always have strictly smaller indices than their
children (the heap grows at the end), so a fuel of `envs.length + 1` never
runs out on the states the interpreter builds. -/
def get (envs : List Env) : Nat → Nat → Token → Except Failure Literal
  | 0, _, _ => Except.error Failure.fuelOut
  | fuel + 1, id, name =>
    match envs.get? id with
    | none => Except.error (Failure.crash "invalid environment handle")
    | some e =>
      match values_get name.lexeme e.values with
      | some v => Except.ok v
      | none =>
        match e.enclosing with
        | some parent => get envs fuel parent name
        | none =>
          Except.error (Failure.err (LoxError.runtimeError name
            ("Undefined variable '" ++ name.lexeme ++ "'.")))

/-- `Environment::assign`: update in the first scope of the chain that
already has the name; returns the updated heap. -/
def assign (envs : List Env) : Nat → Nat → Token → Literal → Except Failure (List Env)
  | 0, _, _, _ => Except.error Failure.fuelOut
  | fuel + 1, id, name, value =>
    match envs.get? id with
    | none => Except.error (Failure.crash "invalid environment handle")
    | some e =>
      if (values_get name.lexeme e.values).isSome then
        Except.ok (envs.set id (define e name.lexeme value))
      else
        match e.enclosing with
        | some parent => assign envs fuel parent name value
        | none =>
          Except.error (Failure.err (LoxError.runtimeError name
            ("Undefined variable '" ++ name.lexeme ++ "'.")))

end Environment

/-! ## Scanner (src/src/scanner.rs) -/

/-- Scanner state. `source_length` is what `Scanner::new` computes,
`source.len() - 1` — including its off-by-one. -/
structure ScanState where
  source : List Char
  source_length : Nat
  tokens : List Token
  start : Nat
  current : Nat
  line : Nat

abbrev ScanM (α : Type) : Type := PM ScanState α

/-- `usize` subtraction by one with wrap-around (release build). A debug
build panics right here on 0; either way an empty source cannot be scanned
normally (with the wrapped value, the first `advance` fails its `unwrap`). -/
def usize_wrap_pred (n : Nat) : Nat := (n + (2 ^ 64 - 1)) % 2 ^ 64

/-- The fixed keyword table filled in `Scanner::new`. -/
def keyword_lookup (s : String) : Option TokenType :=
  if s = "and" then some TokenType.And
  else if s = "class" then some TokenType.Class
  else if s = "else" then some TokenType.Else
  else if s = "false" then some TokenType.False
  else if s = "for" then some TokenType.For
  else if s = "fun" then some TokenType.Fun
  else if s = "if" then some TokenType.If
  else if s = "nil" then some TokenType.Nil
  else if s = "or" then some TokenType.Or
  else if s = "print" then some TokenType.Print
  else if s = "return" then some TokenType.Return
  else if s = "super" then some TokenType.Super
  else if s = "this" then some TokenType.This
  else if s = "true" then some TokenType.True
  else if s = "var" then some TokenType.Var
  else if s = "while" then some TokenType.While
  else none

namespace Scanner

/-- `Scanner::new`, including the `source.len() - 1` slip the spec flags. -/
def new (source : List Char) : ScanState :=
  { source := source
    source_length := usize_wrap_pred source.length
    tokens := []
    start := 0
    current := 0
    line := 1 }

def is_at_end : ScanM Bool := do
  let st ← PM.get
  pure (decide (st.current ≥ st.source_length))

/-- `Scanner::advance`: increment `current`, return the character at the old
offset; `chars().nth(...).unwrap()` panics when past the end. -/
def advance : ScanM Char := do
  let st ← PM.get
  let current := st.current
  PM.set { st with current := current + 1 }
  match st.source.get? current with
  | some c => pure c
  | none => PM.throw (Failure.crash "unwrap")

def add_token_with_literal (token_type : TokenType) (literal : Option ScanLit) :
    ScanM Unit := do
  let st ← PM.get
  let text := String.mk ((st.source.drop st.start).take (st.current - st.start))
  PM.set { st with tokens := st.tokens ++
    [{ token_type := token_type, lexeme := text, literal := literal, line := st.line }] }

def add_token (token_type : TokenType) : ScanM Unit :=
  add_token_with_literal token_type none

def match_char (expected : Char) : ScanM Bool := do
  let atEnd ← is_at_end
  if atEnd then pure false
  else do
    let st ← PM.get
    match st.source.get? st.current with
    | none => PM.throw (Failure.crash "unwrap")
    | some current_char =>
      if current_char ≠ expected then pure false
      else do
        PM.set { st with current := st.current + 1 }
        pure true

def peek : ScanM Char := do
  let atEnd ← is_at_end
  if atEnd then pure '\x00'
  else do
    let st ← PM.get
    match st.source.get? st.current with
    | some c => pure c
    | none => PM.throw (Failure.crash "unwrap")

def peek_next : ScanM Char := do
  let atEnd ← is_at_end
  if atEnd then pure '\x00'
  else do
    let st ← PM.get
    match st.source.get? (st.current + 1) with
    | some c => pure c
    | none => PM.throw (Failure.crash "unwrap")

def is_alpha (c : Char) : Bool := c.isAlpha || c == '_'

def is_alphanumeric (c : Char) : Bool := is_alpha c || c.isDigit

/-- The `//` comment loop: while peek is not a newline and not at end. -/
def line_comment_loop : Nat → ScanM Unit
  | 0 => PM.throw Failure.fuelOut
  | fuel + 1 => do
    let p ← peek
    let atEnd ← is_at_end
    if p != '\n' && !atEnd then do
      let _ ← advance
      line_comment_loop fuel
    else pure ()

/-- The nested `/* ... */` loop; the stack of opening lines is a Vec (push
and pop at the end). -/
def block_comment_loop : Nat → List Nat → ScanM (List Nat)
  | 0, _ => PM.throw Failure.fuelOut
  | fuel + 1, stack => do
    let atEnd ← is_at_end
    if stack.length != 0 && !atEnd then do
      let c ← peek
      let next_char ← peek_next
      let stack2 ←
        if c == '*' && next_char == '/' then do
          let _ ← advance
          pure stack.dropLast
        else if c == '/' && next_char == '*' then do
          let st ← PM.get
          let _ ← advance
          pure (stack ++ [st.line])
        else if c == '\n' then do
          let st ← PM.get
          PM.set { st with line := st.line + 1 }
          pure stack
        else pure stack
      let _ ← advance
      block_comment_loop fuel stack2
    else pure stack

/-- `Scanner::string` body loop. -/
def string_loop : Nat → ScanM Unit
  | 0 => PM.throw Failure.fuelOut
  | fuel + 1 => do
    let p ← peek
    let atEnd ← is_at_end
    if p != '"' && !atEnd then do
      (if p == '\n' then do
        let st ← PM.get
        PM.set { st with line := st.line + 1 }
      else pure ())
      let _ ← advance
      string_loop fuel
    else pure ()

/-- `Scanner::string`: an unterminated string only reports to the sink. -/
def string (fuel : Nat) : ScanM Unit := do
  string_loop fuel
  let atEnd ← is_at_end
  if atEnd then pure ()
  else do
    let _ ← advance
    let st ← PM.get
    let value := String.mk
      ((st.source.drop (st.start + 1)).take ((st.current - 1) - (st.start + 1)))
    add_token_with_literal TokenType.String (some (ScanLit.string value))

def digit_loop : Nat → ScanM Unit
  | 0 => PM.throw Failure.fuelOut
  | fuel + 1 => do
    let p ← peek
    if p.isDigit then do
      let _ ← advance
      digit_loop fuel
    else pure ()

def digits_to_nat (cs : List Char) : Nat :=
  cs.foldl (fun acc c => acc * 10 + (c.toNat - 48)) 0

/-- `value.parse::<f64>().unwrap()` on a scanner-produced numeral, modelled
as the exact rational of the decimal literal. -/
def parse_number_lit (cs : List Char) : Rat :=
  match cs.splitOn '.' with
  | [w] => (digits_to_nat w : Rat)
  | [w, f] => (digits_to_nat w : Rat) + (digits_to_nat f : Rat) / ((10 : Rat) ^ f.length)
  | _ => 0

/-- `Scanner::number`. -/
def number (fuel : Nat) : ScanM Unit := do
  digit_loop fuel
  let p ← peek
  let pn ← peek_next
  (if p == '.' && pn.isDigit then do
    let _ ← advance
    digit_loop fuel
  else pure ())
  let st ← PM.get
  let value := (st.source.drop st.start).take (st.current - st.start)
  add_token_with_literal TokenType.Number (some (ScanLit.number (parse_number_lit value)))

def ident_loop : Nat → ScanM Unit
  | 0 => PM.throw Failure.fuelOut
  | fuel + 1 => do
    let p ← peek
    if is_alphanumeric p then do
      let _ ← advance
      ident_loop fuel
    else pure ()

/-- `Scanner::identifier`. -/
def identifier (fuel : Nat) : ScanM Unit := do
  ident_loop fuel
  let st ← PM.get
  let text := String.mk ((st.source.drop st.start).take (st.current - st.start))
  let token_type := (keyword_lookup text).getD TokenType.Identifier
  add_token token_type

/-- `Scanner::scan_token`. Unrecognized characters and unterminated block
comments only report to the diagnostic sink. -/
def scan_token (fuel : Nat) : ScanM Unit := do
  let c ← advance
  match c with
  | '(' => add_token TokenType.LeftParen
  | ')' => add_token TokenType.RightParen
  | '{' => add_token TokenType.LeftBrace
  | '}' => add_token TokenType.RightBrace
  | ',' => add_token TokenType.Comma
  | '.' => add_token TokenType.Dot
  | '-' => add_token TokenType.Minus
  | '+' => add_token TokenType.Plus
  | ';' => add_token TokenType.Semicolon
  | '*' => add_token TokenType.Star
  | '!' => do
    let m ← match_char '='
    if m then add_token TokenType.BangEqual else add_token TokenType.Bang
  | '=' => do
    let m ← match_char '='
    if m then add_token TokenType.EqualEqual else add_token TokenType.Equal
  | '<' => do
    let m ← match_char '='
    if m then add_token TokenType.LessEqual else add_token TokenType.Less
  | '>' => do
    let m ← match_char '='
    if m then add_token TokenType.GreaterEqual else add_token TokenType.Greater
  | '/' => do
    let m ← match_char '/'
    if m then line_comment_loop fuel
    else do
      let m2 ← match_char '*'
      if m2 then do
        let st ← PM.get
        let _ ← block_comment_loop fuel [st.line]
        pure ()
      else add_token TokenType.Slash
  | ' ' => pure ()
  | '\r' => pure ()
  | '\t' => pure ()
  | '\n' => do
    let st ← PM.get
    PM.set { st with line := st.line + 1 }
  | '"' => string fuel
  | other =>
    if other.isDigit then number fuel
    else if is_alpha other then identifier fuel
    else pure ()

/-- The `while !self.is_at_end()` loop of `scan_tokens`. -/
def scan_loop : Nat → ScanM Unit
  | 0 => PM.throw Failure.fuelOut
  | fuel + 1 => do
    let atEnd ← is_at_end
    if !atEnd then do
      let st ← PM.get
      PM.set { st with start := st.current }
      scan_token fuel
      scan_loop fuel
    else pure ()

/-- `Scanner::scan_tokens`: run the loop, then push the one EOF token. -/
def scan_tokens (fuel : Nat) : ScanM (List Token) := do
  scan_loop fuel
  let st ← PM.get
  let eof_token : Token :=
    { token_type := TokenType.EOF, lexeme := "", literal := none, line := st.line }
  PM.set { st with tokens := st.tokens ++ [eof_token] }
  pure (st.tokens ++ [eof_token])

/-- `Scanner::new` followed by `scan_tokens`, as `Lox::run` uses them. -/
def scan_tokens_top (fuel : Nat) (source : List Char) : Except Failure (List Token) :=
  (scan_tokens fuel (new source)).1

end Scanner

/-! ## Parser (src/src/parser.rs)

Every mutually recursive rule takes fuel and matches `fuel + 1` on entry,
calling the other rules with the decremented fuel; helper `_loop` functions
name the source's inline `while`/`loop` bodies. -/

/-- Parser state: the token stream and the `current` cursor. -/
structure PState where
  tokens : List Token
  current : Nat

abbrev ParseM (α : Type) : Type := PM PState α

namespace Parser

/-- `Parser::peek`: `tokens.get(current).unwrap()`. -/
def peek : ParseM Token := do
  let st ← PM.get
  match st.tokens.get? st.current with
  | some t => pure t
  | none => PM.throw (Failure.crash "unwrap")

/-- `Parser::previous`: `tokens.get(current - 1).unwrap()` (underflows, and
so panics, when `current` is 0). -/
def previous : ParseM Token := do
  let st ← PM.get
  if st.current = 0 then PM.throw (Failure.crash "usize underflow")
  else
    match st.tokens.get? (st.current - 1) with
    | some t => pure t
    | none => PM.throw (Failure.crash "unwrap")

def is_at_end : ParseM Bool := do
  let t ← peek
  pure (decide (t.token_type = TokenType.EOF))

def advance : ParseM Token := do
  let atEnd ← is_at_end
  (if !atEnd then do
    let st ← PM.get
    PM.set { st with current := st.current + 1 }
  else pure ())
  previous

def check (token_type : TokenType) : ParseM Bool := do
  let atEnd ← is_at_end
  if atEnd then pure false
  else do
    let t ← peek
    pure (decide (t.token_type = token_type))

/-- `Parser::is_match` over the candidate list. -/
def is_match : List TokenType → ParseM Bool
  | [] => pure false
  | token_type :: rest => do
    let c ← check token_type
    if c then do
      let _ ← advance
      pure true
    else is_match rest

/-- `Parser::consume`; the error constructor also reports to stderr. -/
def consume (token_type : TokenType) (message : String) : ParseM Token := do
  let c ← check token_type
  if c then advance
  else do
    let t ← peek
    PM.throw (Failure.err (LoxError.parseError t message))

/-- The loop of `Parser::synchronize`. -/
def sync_loop : Nat → ParseM Unit
  | 0 => PM.throw Failure.fuelOut
  | fuel + 1 => do
    let atEnd ← is_at_end
    if atEnd then pure ()
    else do
      let prev ← previous
      if prev.token_type = TokenType.Semicolon then pure ()
      else do
        let t ← peek
        match t.token_type with
        | TokenType.Class | TokenType.Fun | TokenType.Var | TokenType.For
        | TokenType.If | TokenType.While | TokenType.Print | TokenType.Return => pure ()
        | _ => do
          let _ ← advance
          sync_loop fuel

def synchronize (fuel : Nat) : ParseM Unit := do
  let _ ← advance
  sync_loop fuel

/-- The desugaring section of `Parser::for_statement` (src/src/parser.rs
lines 135-156), verbatim as a pure function of the parsed clauses. -/
def for_build (initializer : Option Stmt) (condition : Option Expr)
    (increment : Option Expr) (body0 : Stmt) : Stmt :=
  let body1 :=
    match increment with
    | some inc => Stmt.block [body0, Stmt.expression inc]
    | none => body0
  let final_condition :=
    match condition with
    | some cond => cond
    | none => Expr.literal (some (Literal.bool true))
  let body2 := Stmt.whileStmt final_condition body1
  match initializer with
  | some init => Stmt.block [init, body2]
  | none => body2

mutual

/-- `Parser::expression`. -/
def expression : Nat → ParseM Expr
  | 0 => PM.throw Failure.fuelOut
  | fuel + 1 => assignment fuel

/-- `Parser::assignment`. An invalid target only reports to the sink and the
LHS is returned unchanged. -/
def assignment : Nat → ParseM Expr
  | 0 => PM.throw Failure.fuelOut
  | fuel + 1 => do
    let e ← or fuel
    let m ← is_match [TokenType.Equal]
    if m then do
      let _equals ← previous
      let value ← assignment fuel
      match e with
      | Expr.varExpr name => pure (Expr.assign name value)
      | _ => pure e
    else pure e

/-- `Parser::or`. -/
def or : Nat → ParseM Expr
  | 0 => PM.throw Failure.fuelOut
  | fuel + 1 => do
    let e ← and fuel
    or_loop fuel e

def or_loop : Nat → Expr → ParseM Expr
  | 0, _ => PM.throw Failure.fuelOut
  | fuel + 1, e => do
    let m ← is_match [TokenType.Or]
    if m then do
      let operator ← previous
      let right ← and fuel
      or_loop fuel (Expr.logical e operator right)
    else pure e

/-- `Parser::and`. -/
def and : Nat → ParseM Expr
  | 0 => PM.throw Failure.fuelOut
  | fuel + 1 => do
    let e ← equality fuel
    and_loop fuel e

def and_loop : Nat → Expr → ParseM Expr
  | 0, _ => PM.throw Failure.fuelOut
  | fuel + 1, e => do
    let m ← is_match [TokenType.And]
    if m then do
      let operator ← previous
      let right ← equality fuel
      and_loop fuel (Expr.logical e operator right)
    else pure e

/-- `Parser::equality`. -/
def equality : Nat → ParseM Expr
  | 0 => PM.throw Failure.fuelOut
  | fuel + 1 => do
    let e ← comparison fuel
    equality_loop fuel e

def equality_loop : Nat → Expr → ParseM Expr
  | 0, _ => PM.throw Failure.fuelOut
  | fuel + 1, e => do
    let m ← is_match [TokenType.BangEqual, TokenType.EqualEqual]
    if m then do
      let operator ← previous
      let right ← comparison fuel
      equality_loop fuel (Expr.binary e operator right)
    else pure e

/-- `Parser::comparison`. -/
def comparison : Nat → ParseM Expr
  | 0 => PM.throw Failure.fuelOut
  | fuel + 1 => do
    let e ← term fuel
    comparison_loop fuel e

def comparison_loop : Nat → Expr → ParseM Expr
  | 0, _ => PM.throw Failure.fuelOut
  | fuel + 1, e => do
    let m ← is_match [TokenType.Greater, TokenType.GreaterEqual,
      TokenType.Less, TokenType.LessEqual]
    if m then do
      let operator ← previous
      let right ← term fuel
      comparison_loop fuel (Expr.binary e operator right)
    else pure e

/-- `Parser::term`. -/
def term : Nat → ParseM Expr
  | 0 => PM.throw Failure.fuelOut
  | fuel + 1 => do
    let e ← factor fuel
    term_loop fuel e

def term_loop : Nat → Expr → ParseM Expr
  | 0, _ => PM.throw Failure.fuelOut
  | fuel + 1, e => do
    let m ← is_match [TokenType.Minus, TokenType.Plus]
    if m then do
      let operator ← previous
      let right ← factor fuel
      term_loop fuel (Expr.binary e operator right)
    else pure e

/-- `Parser::factor`. -/
def factor : Nat → ParseM Expr
  | 0 => PM.throw Failure.fuelOut
  | fuel + 1 => do
    let e ← unary fuel
    factor_loop fuel e

def factor_loop : Nat → Expr → ParseM Expr
  | 0, _ => PM.throw Failure.fuelOut
  | fuel + 1, e => do
    let m ← is_match [TokenType.Slash, TokenType.Star]
    if m then do
      let operator ← previous
      let right ← unary fuel
      factor_loop fuel (Expr.binary e operator right)
    else pure e

/-- `Parser::unary`. -/
def unary : Nat → ParseM Expr
  | 0 => PM.throw Failure.fuelOut
  | fuel + 1 => do
    let m ← is_match [TokenType.Bang, TokenType.Minus]
    if m then do
      let operator ← previous
      let right ← unary fuel
      pure (Expr.unary operator right)
    else call fuel

/-- `Parser::call`. -/
def call : Nat → ParseM Expr
  | 0 => PM.throw Failure.fuelOut
  | fuel + 1 => do
    let e ← primary fuel
    call_loop fuel e

def call_loop : Nat → Expr → ParseM Expr
  | 0, _ => PM.throw Failure.fuelOut
  | fuel + 1, e => do
    let m ← is_match [TokenType.LeftParen]
    if m then do
      let e2 ← finish_call fuel e
      call_loop fuel e2
    else pure e

/-- `Parser::finish_call`. The over-255-arguments check only reports to the
sink (non-fatal) and is not modelled. -/
def finish_call : Nat → Expr → ParseM Expr
  | 0, _ => PM.throw Failure.fuelOut
  | fuel + 1, callee => do
    let c ← check TokenType.RightParen
    let arguments ←
      if !c then do
        let first ← expression fuel
        args_loop fuel [first]
      else pure []
    let paren ← consume TokenType.RightParen "Expect ')' after arguments."
    pure (Expr.call callee paren arguments)

def args_loop : Nat → List Expr → ParseM (List Expr)
  | 0, _ => PM.throw Failure.fuelOut
  | fuel + 1, acc => do
    let m ← is_match [TokenType.Comma]
    if m then do
      let a ← expression fuel
      args_loop fuel (acc ++ [a])
    else pure acc

/-- `Parser::primary`. NOTE the parenthesized arm returns the `Grouping`
without consuming the closing `RightParen` — exactly as the source does
(the grammar comment in the same file says `"(" expression ")"`). -/
def primary : Nat → ParseM Expr
  | 0 => PM.throw Failure.fuelOut
  | fuel + 1 => do
    let mFalse ← is_match [TokenType.False]
    if mFalse then pure (Expr.literal (some (Literal.bool false)))
    else do
    let mTrue ← is_match [TokenType.True]
    if mTrue then pure (Expr.literal (some (Literal.bool true)))
    else do
    let mNil ← is_match [TokenType.Nil]
    if mNil then pure (Expr.literal (some Literal.nil))
    else do
    let mLit ← is_match [TokenType.Number, TokenType.String]
    if mLit then do
      let prev ← previous
      pure (Expr.literal (prev.literal.map (fun l =>
        match l with
        | ScanLit.number v => Literal.number v
        | ScanLit.string v => Literal.string v)))
    else do
    let mParen ← is_match [TokenType.LeftParen]
    if mParen then do
      let e ← expression fuel
      pure (Expr.grouping e)
    else do
    let mIdent ← is_match [TokenType.Identifier]
    if mIdent then do
      let name ← previous
      pure (Expr.varExpr name)
    else do
      let current_token ← peek
      PM.throw (Failure.err (LoxError.parseError current_token "Expression expected"))

/-- `Parser::declaration`: dispatch, and `synchronize` on an `Err` result
(a panic is not a `Result` and passes through). -/
def declaration : Nat → ParseM Stmt
  | 0 => PM.throw Failure.fuelOut
  | fuel + 1 => do
    let result ← PM.tryCatch
      (do
        let mVar ← is_match [TokenType.Var]
        let s ←
          if mVar then var_declaration fuel
          else do
            let mFun ← is_match [TokenType.Fun]
            if mFun then function fuel else statement fuel
        pure (Except.ok s))
      (fun f => pure (Except.error f))
    match result with
    | Except.ok s => pure s
    | Except.error (Failure.err e) => do
      synchronize fuel
      PM.throw (Failure.err e)
    | Except.error otherFailure => PM.throw otherFailure

/-- `Parser::statement`. -/
def statement : Nat → ParseM Stmt
  | 0 => PM.throw Failure.fuelOut
  | fuel + 1 => do
    let mFor ← is_match [TokenType.For]
    if mFor then for_statement fuel
    else do
    let mIf ← is_match [TokenType.If]
    if mIf then if_statement fuel
    else do
    let mPrint ← is_match [TokenType.Print]
    if mPrint then print_statement fuel
    else do
    let mReturn ← is_match [TokenType.Return]
    if mReturn then return_statement fuel
    else do
    let mWhile ← is_match [TokenType.While]
    if mWhile then while_statement fuel
    else do
    let mBrace ← is_match [TokenType.LeftBrace]
    if mBrace then do
      let stmts ← block fuel
      pure (Stmt.block stmts)
    else expression_statement fuel

/-- The initializer clause of `for_statement` (src/src/parser.rs lines
105-111). -/
def for_initializer : Nat → ParseM (Option Stmt)
  | 0 => PM.throw Failure.fuelOut
  | fuel + 1 => do
    let mSemi ← is_match [TokenType.Semicolon]
    if mSemi then pure none
    else do
      let mVar ← is_match [TokenType.Var]
      if mVar then do
        let s ← var_declaration fuel
        pure (some s)
      else do
        let s ← expression_statement fuel
        pure (some s)

/-- The condition clause of `for_statement`, including its following
semicolon (lines 113-121). -/
def for_condition : Nat → ParseM (Option Expr)
  | 0 => PM.throw Failure.fuelOut
  | fuel + 1 => do
    let c ← check TokenType.Semicolon
    let condition ←
      if !c then do
        let e ← expression fuel
        pure (some e)
      else pure none
    let _ ← consume TokenType.Semicolon "Expect ';' after loop condition."
    pure condition

/-- The increment clause of `for_statement`, including its closing paren
(lines 123-131). -/
def for_increment : Nat → ParseM (Option Expr)
  | 0 => PM.throw Failure.fuelOut
  | fuel + 1 => do
    let c ← check TokenType.RightParen
    let increment ←
      if !c then do
        let e ← expression fuel
        pure (some e)
      else pure none
    let _ ← consume TokenType.RightParen "Expect ')' after for clauses."
    pure increment

/-- `Parser::for_statement`: parse the clauses, then desugar (the pure
construction of lines 135-156 is `for_build` below). -/
def for_statement : Nat → ParseM Stmt
  | 0 => PM.throw Failure.fuelOut
  | fuel + 1 => do
    let _ ← consume TokenType.LeftParen "Expect '(' after 'for'."
    let initializer ← for_initializer fuel
    let condition ← for_condition fuel
    let increment ← for_increment fuel
    let body ← statement fuel
    pure (for_build initializer condition increment body)

/-- `Parser::if_statement`. -/
def if_statement : Nat → ParseM Stmt
  | 0 => PM.throw Failure.fuelOut
  | fuel + 1 => do
    let _ ← consume TokenType.LeftParen "Expect '(' after 'if'."
    let condition ← expression fuel
    let _ ← consume TokenType.RightParen "Expect ')' after if condition."
    let then_branch ← statement fuel
    let mElse ← is_match [TokenType.Else]
    let else_branch ←
      if mElse then do
        let s ← statement fuel
        pure (some s)
      else pure none
    pure (Stmt.ifStmt condition then_branch else_branch)

/-- `Parser::print_statement`. -/
def print_statement : Nat → ParseM Stmt
  | 0 => PM.throw Failure.fuelOut
  | fuel + 1 => do
    let value ← expression fuel
    let _ ← consume TokenType.Semicolon "Expect ';' after value."
    pure (Stmt.printStmt value)

/-- `Parser::return_statement`. -/
def return_statement : Nat → ParseM Stmt
  | 0 => PM.throw Failure.fuelOut
  | fuel + 1 => do
    let keyword ← previous
    let c ← check TokenType.Semicolon
    let value ←
      if c then pure none
      else do
        let e ← expression fuel
        pure (some e)
    let _ ← consume TokenType.Semicolon "Expect ';' after return value."
    pure (Stmt.returnStmt keyword value)

/-- `Parser::var_declaration`. -/
def var_declaration : Nat → ParseM Stmt
  | 0 => PM.throw Failure.fuelOut
  | fuel + 1 => do
    let name ← consume TokenType.Identifier "Expect variable name."
    let mEq ← is_match [TokenType.Equal]
    let initializer ←
      if mEq then do
        let e ← expression fuel
        pure (some e)
      else pure none
    let _ ← consume TokenType.Semicolon "Expect ';' after variable declaration."
    pure (Stmt.varStmt name initializer)

/-- `Parser::while_statement`. -/
def while_statement : Nat → ParseM Stmt
  | 0 => PM.throw Failure.fuelOut
  | fuel + 1 => do
    let _ ← consume TokenType.LeftParen "Expect '(' after 'while'."
    let condition ← expression fuel
    let _ ← consume TokenType.RightParen "Expect ')' after condition."
    let body ← statement fuel
    pure (Stmt.whileStmt condition body)

/-- `Parser::expression_statement`. -/
def expression_statement : Nat → ParseM Stmt
  | 0 => PM.throw Failure.fuelOut
  | fuel + 1 => do
    let e ← expression fuel
    let _ ← consume TokenType.Semicolon "Expect ';' after value."
    pure (Stmt.expression e)

/-- `Parser::function` with `kind = "function"` (the only call site); the
over-255-parameters check only reports to the sink. -/
def function : Nat → ParseM Stmt
  | 0 => PM.throw Failure.fuelOut
  | fuel + 1 => do
    let name ← consume TokenType.Identifier "Expect function name"
    let _ ← consume TokenType.LeftParen "Expect '(' after function name."
    let cRp ← check TokenType.RightParen
    let parameters ←
      if !cRp then do
        let first ← consume TokenType.Identifier "Expect parameter name."
        params_loop fuel [first]
      else pure []
    let _ ← consume TokenType.RightParen "Expect ')' after parameters."
    let _ ← consume TokenType.LeftBrace "Expect '\x7b' before function body."
    let body ← block fuel
    pure (Stmt.function name parameters body)

def params_loop : Nat → List Token → ParseM (List Token)
  | 0, _ => PM.throw Failure.fuelOut
  | fuel + 1, acc => do
    let m ← is_match [TokenType.Comma]
    if m then do
      let p ← consume TokenType.Identifier "Expect parameter name."
      params_loop fuel (acc ++ [p])
    else pure acc

/-- `Parser::block`. -/
def block : Nat → ParseM (List Stmt)
  | 0 => PM.throw Failure.fuelOut
  | fuel + 1 => block_loop fuel []

def block_loop : Nat → List Stmt → ParseM (List Stmt)
  | 0, _ => PM.throw Failure.fuelOut
  | fuel + 1, acc => do
    let c ← check TokenType.RightBrace
    let atEnd ← is_at_end
    if !c && !atEnd then do
      let s ← declaration fuel
      block_loop fuel (acc ++ [s])
    else do
      let _ ← consume TokenType.RightBrace "Expect '\x7d' after block."
      pure acc

end

/-- The body of the `while !is_at_end` loop of `Parser::parse`:
`if let Ok(s) = self.declaration() { statements.push(s) }` — an `Err`
result is dropped on the floor (a panic still unwinds). -/
def parse_loop : Nat → List Stmt → ParseM (List Stmt)
  | 0, _ => PM.throw Failure.fuelOut
  | fuel + 1, statements => do
    let atEnd ← is_at_end
    if !atEnd then do
      let r ← PM.tryCatch
        (do
          let s ← declaration fuel
          pure (Except.ok s))
        (fun f => pure (Except.error f))
      match r with
      | Except.ok s => parse_loop fuel (statements ++ [s])
      | Except.error (Failure.err _) => parse_loop fuel statements
      | Except.error otherFailure => PM.throw otherFailure
    else pure statements

/-- `Parser::parse`: always ends in `Ok(statements)`. -/
def parse (fuel : Nat) : ParseM (List Stmt) :=
  parse_loop fuel []

end Parser

/-! ## Interpreter (src/src/interpreter.rs, src/src/function.rs,
src/src/native_functions.rs)

The interpreter state holds the environment heap, the two handles `globals`
and `environment` of the `Interpreter` struct, and the stdout lines produced
by `print` (as the printed values). -/

structure InterpState where
  envs : List Env
  globalsId : Nat
  envId : Nat
  output : List Literal

abbrev InterpM (α : Type) : Type := PM InterpState α

namespace Interpreter

/-- `Interpreter::new`: fresh globals with the single binding `"clock"`, and
`environment` an alias of the same handle. -/
def new : InterpState :=
  let globals := Environment.define Environment.new "clock" (Literal.function Callable.clock)
  { envs := [globals], globalsId := 0, envId := 0, output := [] }

/-- `Interpreter::is_truthy`. -/
def is_truthy : Literal → Bool
  | Literal.nil => false
  | Literal.bool v => v
  | _ => true

/-- The decimal rendering of a number used by `format!("{left}{right}")`
when concatenating with a string. Exact for the integral values arising in
this development (`f64` shortest-round-trip rendering is not modelled). -/
def num_display (r : Rat) : String :=
  if r.den = 1 then toString r.num else toString r

/-- `LoxCallable::arity` for both implementors. -/
def arity : Callable → Nat
  | Callable.clock => 0
  | Callable.user _ params _ => params.length

/-- `Clock::call` returns the host wall-clock micros; the host clock is not
modelled and no claim depends on the value, so it returns `Number 0`. -/
def Clock.call (_arguments : List Literal) : InterpM Literal :=
  pure (Literal.number 0)

/-- `self.environment.borrow_mut().define(name, value)`. -/
def define_current (name : String) (value : Literal) : InterpM Unit := do
  let st ← PM.get
  match st.envs.get? st.envId with
  | none => PM.throw (Failure.crash "invalid environment handle")
  | some e =>
    PM.set { st with envs := st.envs.set st.envId (Environment.define e name value) }

/-- `Interpreter::visit_literal_expr`: `expr.value.clone().unwrap()`. -/
def visit_literal_expr (value : Option Literal) : InterpM Literal :=
  match value with
  | some v => pure v
  | none => PM.throw (Failure.crash "unwrap")

/-- `Interpreter::visit_variable_expr`: chain lookup from the current
environment; a `NilImplicit` value is the uninitialized-read error. -/
def visit_variable_expr (name : Token) : InterpM Literal := do
  let st ← PM.get
  match Environment.get st.envs (st.envs.length + 1) st.envId name with
  | Except.error f => PM.throw f
  | Except.ok value =>
    match value with
    | Literal.nilImplicit =>
      PM.throw (Failure.err (LoxError.runtimeError name
        "Variable was not explicitly initialized"))
    | _ => pure value

/-- `Interpreter::visit_function_stmt` builds the function value and defines
it in the current environment. NOTE: the source calls
`LoxFunction::new(stmt, self.environment.clone())`, but `LoxFunction::new`
in src/src/function.rs takes only the declaration and `LoxFunction` stores
no closure field — the passed environment is not accepted/stored (the files
do not typecheck against each other; the struct definition, which `call`
uses, is what is embedded — see the C1 theorem). -/
def visit_function_stmt (name : Token) (params : List Token) (body : List Stmt) :
    InterpM Unit := do
  let functionValue := Callable.user name params body
  define_current name.lexeme (Literal.function functionValue)

mutual

/-- `Interpreter::evaluate` = `expr.accept(self)`: dispatch to the visit
methods. -/
def evaluate : Nat → Expr → InterpM Literal
  | 0, _ => PM.throw Failure.fuelOut
  | fuel + 1, e =>
    match e with
    | Expr.assign name value => visit_assignment_expr fuel name value
    | Expr.binary l operator r => visit_binary_expr fuel l operator r
    | Expr.call callee paren arguments => visit_call_expr fuel callee paren arguments
    | Expr.grouping g => visit_grouping_expr fuel g
    | Expr.literal value => visit_literal_expr value
    | Expr.logical l operator r => visit_logical_exp fuel l operator r
    | Expr.unary operator r => visit_unary_expr fuel operator r
    | Expr.varExpr name => visit_variable_expr name

/-- `Interpreter::visit_binary_expr`: the full dispatch table over the
operand variants; the final arm is the source's `unreachable!()`. -/
def visit_binary_expr : Nat → Expr → Token → Expr → InterpM Literal
  | 0, _, _, _ => PM.throw Failure.fuelOut
  | fuel + 1, l, operator, r => do
    let left ← evaluate fuel l
    let right ← evaluate fuel r
    match left, right with
    | Literal.number a, Literal.number b =>
      match operator.token_type with
      | TokenType.Minus => pure (Literal.number (a - b))
      | TokenType.Slash => pure (Literal.number (a / b))
      | TokenType.Star => pure (Literal.number (a * b))
      | TokenType.Plus => pure (Literal.number (a + b))
      | TokenType.Greater => pure (Literal.bool (decide (a > b)))
      | TokenType.GreaterEqual => pure (Literal.bool (decide (a ≥ b)))
      | TokenType.Less => pure (Literal.bool (decide (a < b)))
      | TokenType.LessEqual => pure (Literal.bool (decide (a ≤ b)))
      | TokenType.BangEqual => pure (Literal.bool (decide (a ≠ b)))
      | TokenType.EqualEqual => pure (Literal.bool (decide (a = b)))
      | _ => PM.throw (Failure.err (LoxError.runtimeError operator "Invalid operation"))
    | Literal.number a, Literal.string b =>
      match operator.token_type with
      | TokenType.Plus => pure (Literal.string (num_display a ++ b))
      | TokenType.BangEqual => pure (Literal.bool true)
      | TokenType.EqualEqual => pure (Literal.bool false)
      | _ => PM.throw (Failure.err (LoxError.runtimeError operator "Operands must be numbers"))
    | Literal.string a, Literal.number b =>
      match operator.token_type with
      | TokenType.Plus => pure (Literal.string (a ++ num_display b))
      | TokenType.BangEqual => pure (Literal.bool true)
      | TokenType.EqualEqual => pure (Literal.bool false)
      | _ => PM.throw (Failure.err (LoxError.runtimeError operator "Operands must be numbers"))
    | Literal.string a, Literal.string b =>
      match operator.token_type with
      | TokenType.Plus => pure (Literal.string (a ++ b))
      | TokenType.BangEqual => pure (Literal.bool (decide (a ≠ b)))
      | TokenType.EqualEqual => pure (Literal.bool (decide (a = b)))
      | _ => PM.throw (Failure.err (LoxError.runtimeError operator "Operands must be numbers"))
    | Literal.bool a, Literal.bool b =>
      match operator.token_type with
      | TokenType.BangEqual => pure (Literal.bool (decide (a ≠ b)))
      | TokenType.EqualEqual => pure (Literal.bool (decide (a = b)))
      | _ => PM.throw (Failure.err (LoxError.runtimeError operator "Operands must be numbers"))
    | Literal.string _, Literal.bool _ | Literal.bool _, Literal.string _ =>
      match operator.token_type with
      | TokenType.BangEqual => pure (Literal.bool true)
      | TokenType.EqualEqual => pure (Literal.bool false)
      | _ => PM.throw (Failure.err (LoxError.runtimeError operator "Operands must be numbers"))
    | Literal.number _, Literal.bool _ | Literal.bool _, Literal.number _ =>
      match operator.token_type with
      | TokenType.BangEqual => pure (Literal.bool true)
      | TokenType.EqualEqual => pure (Literal.bool false)
      | _ => PM.throw (Failure.err (LoxError.runtimeError operator
          "Operands must be two numbers or two strings."))
    | Literal.nil, Literal.nil =>
      match operator.token_type with
      | TokenType.BangEqual => pure (Literal.bool false)
      | TokenType.EqualEqual => pure (Literal.bool true)
      | _ => PM.throw (Failure.err (LoxError.runtimeError operator
          "Operands must be two numbers or two strings."))
    | Literal.nil, _ | _, Literal.nil =>
      match operator.token_type with
      | TokenType.BangEqual => pure (Literal.bool true)
      | TokenType.EqualEqual => pure (Literal.bool false)
      | _ => PM.throw (Failure.err (LoxError.runtimeError operator
          "Operands must be two numbers or two strings."))
    | _, _ => PM.throw (Failure.crash "unreachable")

/-- `Interpreter::visit_call_expr`. -/
def visit_call_expr : Nat → Expr → Token → List Expr → InterpM Literal
  | 0, _, _, _ => PM.throw Failure.fuelOut
  | fuel + 1, calleeExpr, paren, argumentExprs => do
    let callee ← evaluate fuel calleeExpr
    let arguments ← eval_arguments fuel argumentExprs
    match callee with
    | Literal.function f =>
      if arguments.length ≠ arity f then
        PM.throw (Failure.err (LoxError.runtimeError paren
          ("Expected " ++ toString (arity f) ++ " arguments but got " ++
            toString arguments.length ++ ".")))
      else call_callable fuel f arguments
    | _ =>
      PM.throw (Failure.err (LoxError.runtimeError paren
        "Can only call functions and classes."))

/-- The argument-evaluation loop of `visit_call_expr` (left to right). -/
def eval_arguments : Nat → List Expr → InterpM (List Literal)
  | 0, _ => PM.throw Failure.fuelOut
  | _ + 1, [] => pure []
  | fuel + 1, e :: rest => do
    let v ← evaluate fuel e
    let vs ← eval_arguments fuel rest
    pure (v :: vs)

/-- Dynamic dispatch of `LoxCallable::call`. -/
def call_callable : Nat → Callable → List Literal → InterpM Literal
  | 0, _, _ => PM.throw Failure.fuelOut
  | fuel + 1, f, arguments =>
    match f with
    | Callable.clock => Clock.call arguments
    | Callable.user _ params body => LoxFunction.call fuel params body arguments

/-- `LoxFunction::call` (src/src/function.rs lines 34-55): the call
environment's parent is `interpreter.globals()` — not a captured closure
(none is stored); a `ReturnValue` unwind becomes the result; ANY OTHER
`LoxError` is matched by `_ => {}` and the call falls through to
`Ok(Literal::Nil)` — the error is discarded. A panic still unwinds. -/
def LoxFunction.call : Nat → List Token → List Stmt → List Literal → InterpM Literal
  | 0, _, _, _ => PM.throw Failure.fuelOut
  | fuel + 1, params, body, arguments => do
    let st ← PM.get
    let environment := (params.zip arguments).foldl
      (fun e pa => Environment.define e pa.1.lexeme pa.2)
      (Environment.new_with_enclosing st.globalsId)
    let result ← PM.tryCatch
      (do
        execute_block fuel body environment
        pure (Except.ok ()))
      (fun f => pure (Except.error f))
    match result with
    | Except.ok _ => pure Literal.nil
    | Except.error (Failure.err (LoxError.returnValue value)) => pure value
    | Except.error (Failure.err _) => pure Literal.nil
    | Except.error otherFailure => PM.throw otherFailure

/-- `Interpreter::visit_grouping_expr`. -/
def visit_grouping_expr : Nat → Expr → InterpM Literal
  | 0, _ => PM.throw Failure.fuelOut
  | fuel + 1, e => evaluate fuel e

/-- `Interpreter::visit_logical_exp`: evaluate left; `or` with truthy left or
non-`or` with falsy left short-circuits to left; otherwise the result is the
right operand's value. -/
def visit_logical_exp : Nat → Expr → Token → Expr → InterpM Literal
  | 0, _, _, _ => PM.throw Failure.fuelOut
  | fuel + 1, l, operator, r => do
    let left ← evaluate fuel l
    if operator.token_type = TokenType.Or then
      if is_truthy left then pure left
      else evaluate fuel r
    else
      if !is_truthy left then pure left
      else evaluate fuel r

/-- `Interpreter::visit_unary_expr`. -/
def visit_unary_expr : Nat → Token → Expr → InterpM Literal
  | 0, _, _ => PM.throw Failure.fuelOut
  | fuel + 1, operator, r => do
    let right ← evaluate fuel r
    match operator.token_type with
    | TokenType.Minus =>
      match right with
      | Literal.number v => pure (Literal.number (-v))
      | _ => PM.throw (Failure.err (LoxError.runtimeError operator
          "Operand must be a number."))
    | TokenType.Bang => pure (Literal.bool (!is_truthy right))
    | _ => PM.throw (Failure.crash "unreachable")

/-- `Interpreter::visit_assignment_expr`. -/
def visit_assignment_expr : Nat → Token → Expr → InterpM Literal
  | 0, _, _ => PM.throw Failure.fuelOut
  | fuel + 1, name, valueExpr => do
    let value ← evaluate fuel valueExpr
    let st ← PM.get
    match Environment.assign st.envs (st.envs.length + 1) st.envId name value with
    | Except.error f => PM.throw f
    | Except.ok envs2 => do
      PM.set { st with envs := envs2 }
      pure value

/-- `Interpreter::execute` = `stmt.accept(self)`: dispatch. -/
def execute : Nat → Stmt → InterpM Unit
  | 0, _ => PM.throw Failure.fuelOut
  | fuel + 1, s =>
    match s with
    | Stmt.block statements => visit_block_stmt fuel statements
    | Stmt.expression e => visit_expression_stmt fuel e
    | Stmt.function name params body => visit_function_stmt name params body
    | Stmt.ifStmt condition then_branch else_branch =>
      visit_if_stmt fuel condition then_branch else_branch
    | Stmt.printStmt e => visit_print_stmt fuel e
    | Stmt.returnStmt keyword value => visit_return_stmt fuel keyword value
    | Stmt.varStmt name initializer => visit_var_stmt fuel name initializer
    | Stmt.whileStmt condition body => visit_while_stmt fuel condition body

/-- `Interpreter::visit_expression_stmt`. -/
def visit_expression_stmt : Nat → Expr → InterpM Unit
  | 0, _ => PM.throw Failure.fuelOut
  | fuel + 1, e => do
    let _ ← evaluate fuel e
    pure ()

/-- `Interpreter::visit_if_stmt`. -/
def visit_if_stmt : Nat → Expr → Stmt → Option Stmt → InterpM Unit
  | 0, _, _, _ => PM.throw Failure.fuelOut
  | fuel + 1, condition, then_branch, else_branch => do
    let lit ← evaluate fuel condition
    if is_truthy lit then execute fuel then_branch
    else
      match else_branch with
      | some s => execute fuel s
      | none => pure ()

/-- `Interpreter::visit_print_stmt`: `println!` modelled as appending the
value to the output trace. -/
def visit_print_stmt : Nat → Expr → InterpM Unit
  | 0, _ => PM.throw Failure.fuelOut
  | fuel + 1, e => do
    let value ← evaluate fuel e
    let st ← PM.get
    PM.set { st with output := st.output ++ [value] }

/-- `Interpreter::visit_return_stmt`: the unwind is an `Err` carrying the
value. -/
def visit_return_stmt : Nat → Token → Option Expr → InterpM Unit
  | 0, _, _ => PM.throw Failure.fuelOut
  | fuel + 1, _keyword, value =>
    match value with
    | some e => do
      let v ← evaluate fuel e
      PM.throw (Failure.err (LoxError.returnValue v))
    | none => PM.throw (Failure.err (LoxError.returnValue Literal.nil))

/-- `Interpreter::visit_var_stmt`. -/
def visit_var_stmt : Nat → Token → Option Expr → InterpM Unit
  | 0, _, _ => PM.throw Failure.fuelOut
  | fuel + 1, name, initializer => do
    let value ←
      match initializer with
      | some e => evaluate fuel e
      | none => pure Literal.nilImplicit
    define_current name.lexeme value

/-- `Interpreter::visit_while_stmt`. -/
def visit_while_stmt : Nat → Expr → Stmt → InterpM Unit
  | 0, _, _ => PM.throw Failure.fuelOut
  | fuel + 1, condition, body => do
    let lit ← evaluate fuel condition
    while_loop fuel lit condition body

def while_loop : Nat → Literal → Expr → Stmt → InterpM Unit
  | 0, _, _, _ => PM.throw Failure.fuelOut
  | fuel + 1, lit, condition, body =>
    if is_truthy lit then do
      execute fuel body
      let lit2 ← evaluate fuel condition
      while_loop fuel lit2 condition body
    else pure ()

/-- `Interpreter::visit_block_stmt`. -/
def visit_block_stmt : Nat → List Stmt → InterpM Unit
  | 0, _ => PM.throw Failure.fuelOut
  | fuel + 1, statements => do
    let st ← PM.get
    execute_block fuel statements (Environment.new_with_enclosing st.envId)

/-- `Interpreter::execute_block`: install the new environment (a fresh heap
entry), run the statements, restore the previous handle even on an error
(the captured `result` is returned afterwards). -/
def execute_block : Nat → List Stmt → Env → InterpM Unit
  | 0, _, _ => PM.throw Failure.fuelOut
  | fuel + 1, statements, environment => do
    let st ← PM.get
    let previous := st.envId
    PM.set { st with envs := st.envs ++ [environment], envId := st.envs.length }
    let result ← PM.tryCatch
      (do
        exec_seq fuel statements
        pure (Except.ok ()))
      (fun f => pure (Except.error f))
    let st2 ← PM.get
    PM.set { st2 with envId := previous }
    match result with
    | Except.ok _ => pure ()
    | Except.error f => PM.throw f

/-- The `try_for_each(execute)` of `execute_block`. -/
def exec_seq : Nat → List Stmt → InterpM Unit
  | 0, _ => PM.throw Failure.fuelOut
  | _ + 1, [] => pure ()
  | fuel + 1, s :: rest => do
    execute fuel s
    exec_seq fuel rest

end

/-- `Interpreter::interpret`: execute the statements in order, stopping at
the first error. -/
def interpret : Nat → List Stmt → InterpM Unit
  | 0, _ => PM.throw Failure.fuelOut
  | _ + 1, [] => pure ()
  | fuel + 1, s :: rest => do
    execute fuel s
    interpret fuel rest

end Interpreter

/-! ## Driver (src/src/lox.rs) -/

/-- The two flag fields of `Lox`. -/
structure LoxSt where
  had_error : Bool
  had_runtime_error : Bool

namespace Lox

/-- `Lox::run`: scan, parse (an `Err` sets `had_error` and skips
evaluation), then interpret with a freshly constructed `Interpreter` (an
`Err` sets `had_runtime_error`). The debug `println!` of the AST printer
and of the interpreter's unit result are not modelled (neither call
typechecks against the parser's output type in the source). The returned
value pairs the updated flags with the stdout trace of `print` statements;
a crash propagates. -/
def run (fuel : Nat) (l : LoxSt) (source : List Char) :
    Except Failure (LoxSt × List Literal) :=
  match Scanner.scan_tokens_top fuel source with
  | Except.error f => Except.error f
  | Except.ok tokens =>
    match Parser.parse fuel { tokens := tokens, current := 0 } with
    | (Except.error (Failure.err _), _) => Except.ok ({ l with had_error := true }, [])
    | (Except.error f, _) => Except.error f
    | (Except.ok statements, _) =>
      match Interpreter.interpret fuel statements Interpreter.new with
      | (Except.ok _, st) => Except.ok (l, st.output)
      | (Except.error (Failure.err _), st) =>
        Except.ok ({ l with had_runtime_error := true }, st.output)
      | (Except.error f, _) => Except.error f

end Lox

/-! ## Concrete inputs used by the theorems below -/

/-- An identifier token, as the scanner would emit it on line 1. -/
def identTok (s : String) : Token :=
  { token_type := TokenType.Identifier, lexeme := s, literal := none, line := 1 }

/-- A payload-free token of the given kind, line 1. -/
def opTok (token_type : TokenType) (s : String) : Token :=
  { token_type := token_type, lexeme := s, literal := none, line := 1 }

/-- A number token, line 1. -/
def numTok (s : String) (v : Rat) : Token :=
  { token_type := TokenType.Number, lexeme := s, literal := some (ScanLit.number v), line := 1 }

/-- The closure test program
`var c = 7; { var c = 1; fun get() { return c; } print get(); }`.
With the captured-closure parent the spec describes, `get` reads the block's
`c` and the program prints `1`; with the call environment parented on the
globals (what `LoxFunction::call` does), `get` reads the global `c` and the
program prints `7`. -/
def c1_program : List Stmt :=
  [ Stmt.varStmt (identTok "c") (some (Expr.literal (some (Literal.number 7)))),
    Stmt.block
      [ Stmt.varStmt (identTok "c") (some (Expr.literal (some (Literal.number 1)))),
        Stmt.function (identTok "get") []
          [ Stmt.returnStmt (opTok TokenType.Return "return")
              (some (Expr.varExpr (identTok "c"))) ],
        Stmt.printStmt
          (Expr.call (Expr.varExpr (identTok "get")) (opTok TokenType.RightParen ")") []) ] ]

/-- `fun f() { x; } print f();` — the body raises an undefined-variable
runtime error; the claim says the call must propagate it. -/
def c2_program : List Stmt :=
  [ Stmt.function (identTok "f") [] [Stmt.expression (Expr.varExpr (identTok "x"))],
    Stmt.printStmt
      (Expr.call (Expr.varExpr (identTok "f")) (opTok TokenType.RightParen ")") []) ]

/-- The token stream of `print ;` — a parse error (no expression before the
semicolon). -/
def c4_tokens : List Token :=
  [ opTok TokenType.Print "print", opTok TokenType.Semicolon ";",
    opTok TokenType.EOF "" ]

/-- The token stream of `(1);` as the scanner would emit it. -/
def c5_tokens : List Token :=
  [ opTok TokenType.LeftParen "(", numTok "1" 1, opTok TokenType.RightParen ")",
    opTok TokenType.Semicolon ";", opTok TokenType.EOF "" ]

/-- A top-level `return 1;` statement. -/
def c6_program : List Stmt :=
  [ Stmt.returnStmt (opTok TokenType.Return "return")
      (some (Expr.literal (some (Literal.number 1)))) ]

/-- `clock + 1;` — a Function operand combined with a Number operand under
an arithmetic operator. -/
def c7_program : List Stmt :=
  [ Stmt.expression
      (Expr.binary (Expr.varExpr (identTok "clock")) (opTok TokenType.Plus "+")
        (Expr.literal (some (Literal.number 1)))) ]

/-- The token stream of `for (;;) print 1;` (all three clauses elided). -/
def c8_tokens : List Token :=
  [ opTok TokenType.For "for", opTok TokenType.LeftParen "(",
    opTok TokenType.Semicolon ";", opTok TokenType.Semicolon ";",
    opTok TokenType.RightParen ")", opTok TokenType.Print "print",
    numTok "1" 1, opTok TokenType.Semicolon ";", opTok TokenType.EOF "" ]

/-! ## Run lemmas for the embedding monad -/

theorem PM.run_pure (a : α) (s : σ) : (pure a : PM σ α) s = (Except.ok a, s) := rfl

theorem PM.run_bind (x : PM σ α) (f : α → PM σ β) (s : σ) :
    (x >>= f) s = match x s with
      | (Except.ok a, s2) => f a s2
      | (Except.error e, s2) => (Except.error e, s2) := rfl

theorem PM.run_get (s : σ) : (PM.get : PM σ σ) s = (Except.ok s, s) := rfl

theorem PM.run_set (s2 s : σ) : (PM.set s2 : PM σ Unit) s = (Except.ok (), s2) := rfl

theorem PM.run_throw (f : Failure) (s : σ) :
    (PM.throw f : PM σ α) s = (Except.error f, s) := rfl

theorem PM.run_tryCatch (x : PM σ α) (h : Failure → PM σ α) (s : σ) :
    PM.tryCatch x h s = match x s with
      | (Except.error f, s2) => h f s2
      | (Except.ok a, s2) => (Except.ok a, s2) := rfl

/-! ## Helper lemmas -/

/-- `Environment.define` never changes the parent pointer, so folding the
parameter bindings over an environment keeps its parent. -/
theorem foldl_define_enclosing (l : List (Token × Literal)) (e : Env) :
    (l.foldl (fun acc pa => Environment.define acc pa.1.lexeme pa.2) e).enclosing
      = e.enclosing := by
  induction l generalizing e with
  | nil => rfl
  | cons hd tl ih => simpa [List.foldl] using ih (Environment.define e hd.1.lexeme hd.2)

/-- `Parser::is_at_end` can crash (peek past the token list) but never
produces an `Err` result. -/
theorem is_at_end_no_err (st : PState) :
    is_err_result (Parser.is_at_end st).1 = false := by
  rcases h : st.tokens[st.current]? with _ | t <;>
    simp [Parser.is_at_end, Parser.peek, PM.run_bind, PM.run_get, PM.run_pure,
      PM.run_throw, h, is_err_result, failure_is_err]

/-- The loop of `Parser::parse` drops every `Err` a declaration produces, so
it can never end in an `Err` result itself. -/
theorem parse_loop_no_err (fuel : Nat) :
    ∀ (acc : List Stmt) (st : PState),
      is_err_result (Parser.parse_loop fuel acc st).1 = false := by
  induction fuel with
  | zero => intro acc st; rfl
  | succ n ih =>
    intro acc st
    rw [Parser.parse_loop]
    rcases h1 : Parser.is_at_end st with ⟨r1, st1⟩
    rcases r1 with f | atEnd
    · have hne := is_at_end_no_err st
      rw [h1] at hne
      simp only [is_err_result] at hne
      simp [PM.run_bind, h1, is_err_result, hne]
    · rcases atEnd with _ | _
      · rcases h2 : Parser.declaration n st1 with ⟨r2, st2⟩
        rcases r2 with f | s
        · rcases f with e | m | _
          · simp [PM.run_bind, PM.run_tryCatch, PM.run_pure, PM.run_throw, h1, h2, ih]
          · simp [PM.run_bind, PM.run_tryCatch, PM.run_pure, PM.run_throw, h1, h2,
              is_err_result, failure_is_err]
          · simp [PM.run_bind, PM.run_tryCatch, PM.run_pure, PM.run_throw, h1, h2,
              is_err_result, failure_is_err]
        · simp [PM.run_bind, PM.run_tryCatch, PM.run_pure, PM.run_throw, h1, h2, ih]
      · simp [PM.run_bind, PM.run_pure, h1, is_err_result]

/-! ## The claims -/

/-- C1. The claim says a user-function call creates an environment whose
parent is the closure environment captured at the definition site (not the
globals), making closures work. The code refutes it: (i) for every
interpreter state, the environment that `LoxFunction::call` builds (its
parameter-binding fold over `Environment::new_with_enclosing
(interpreter.globals())`) has the GLOBALS handle as its parent, whatever
environment was current when the function was defined (`LoxFunction` stores
no closure at all — `visit_function_stmt` passes `self.environment` to a
constructor that does not accept it); (ii) concretely, the program
`var c = 7; { var c = 1; fun get() { return c; } print get(); }` prints `7`
(the global `c`) instead of the captured `1`. -/
theorem c1_user_call_environment_parents_globals :
    (∀ (params : List Token) (arguments : List Literal) (st : InterpState),
      ((params.zip arguments).foldl
          (fun e pa => Environment.define e pa.1.lexeme pa.2)
          (Environment.new_with_enclosing st.globalsId)).enclosing = some st.globalsId)
    ∧ (Interpreter.interpret 30 c1_program Interpreter.new).1 = Except.ok ()
    ∧ ((Interpreter.interpret 30 c1_program Interpreter.new).2).output
        = [Literal.number 7] :=
  ⟨fun params arguments st => by rw [foldl_define_enclosing]; rfl, rfl, rfl⟩

/-- C2. The claim says `LoxFunction::call` propagates every error other than
the return unwind and never discards one, returning Nil instead. The code
refutes it: calling a parameterless function whose body reads the undefined
variable `x` returns `Ok(Nil)` — the `_ => {}` arm swallows the runtime
error — and the program `fun f() { x; } print f();` completes normally and
prints nil. -/
theorem c2_user_call_discards_errors :
    (Interpreter.LoxFunction.call 20 []
        [Stmt.expression (Expr.varExpr (identTok "x"))] [] Interpreter.new).1
      = Except.ok Literal.nil
    ∧ (Interpreter.interpret 20 c2_program Interpreter.new).1 = Except.ok ()
    ∧ ((Interpreter.interpret 20 c2_program Interpreter.new).2).output
        = [Literal.nil] :=
  ⟨rfl, rfl, rfl⟩

/-- C3. The claim says scanning any input, the empty string included,
terminates normally without panic or underflow and consumes every character.
The code refutes it: `Scanner::new` computes `source.len() - 1`, which
wraps/underflows on the empty string so that scanning it panics (the first
`advance` fails its `unwrap`), and on `"ab"` the off-by-one end test stops
one character early, so the last character is never consumed and appears in
no token. -/
theorem c3_scanner_off_by_one :
    usize_wrap_pred 0 = 2 ^ 64 - 1
    ∧ Scanner.scan_tokens_top 50 [] = Except.error (Failure.crash "unwrap")
    ∧ Scanner.scan_tokens_top 50 "ab".toList
        = Except.ok [identTok "a", opTok TokenType.EOF ""] :=
  ⟨rfl, rfl, rfl⟩

/-- C4. The claim says a parse error anywhere reaches the driver as an `Err`
from `Parser::parse` and the driver then skips evaluation. The code refutes
it: (i) `parse` can never produce an `Err` result, for any fuel and token
stream (its loop drops each declaration's `Err` on the floor); (ii) on the
token stream of `print ;` a parse error is raised by `declaration` and then
discarded, `parse` answering `Ok([])`; (iii) whenever `parse` returns `Ok`,
`Lox::run` proceeds to interpret the statements and leaves `had_error`
untouched — evaluation is not skipped. -/
theorem c4_parse_errors_never_reach_driver :
    (∀ (fuel : Nat) (st : PState), is_err_result (Parser.parse fuel st).1 = false)
    ∧ Parser.declaration 29 { tokens := c4_tokens, current := 0 }
        = (Except.error (Failure.err (LoxError.parseError
            (opTok TokenType.Semicolon ";") "Expression expected")),
           { tokens := c4_tokens, current := 2 })
    ∧ Parser.parse 30 { tokens := c4_tokens, current := 0 }
        = (Except.ok [], { tokens := c4_tokens, current := 2 })
    ∧ (∀ (fuel : Nat) (l : LoxSt) (source : List Char) (tokens : List Token)
        (stmts : List Stmt) (r : PState) (stI : InterpState),
        Scanner.scan_tokens_top fuel source = Except.ok tokens →
        Parser.parse fuel { tokens := tokens, current := 0 } = (Except.ok stmts, r) →
        Interpreter.interpret fuel stmts Interpreter.new = (Except.ok (), stI) →
        Lox.run fuel l source = Except.ok (l, stI.output)) :=
  ⟨fun fuel st => parse_loop_no_err fuel [] st, rfl, rfl,
   fun fuel l source tokens stmts r stI h1 h2 h3 => by simp [Lox.run, h1, h2, h3]⟩

/-- C5. The claim says `primary` consumes both the `(` and the matching `)`
of a parenthesized expression, leaving the parser after the `)`. The code
refutes it: on the token stream of `(1);`, `primary` returns the `Grouping`
with the cursor still at index 2 — the `)` itself — because the arm never
consumes the closing paren (the file's own grammar comment says
`"(" expression ")"`); consequently the whole well-formed statement `(1);`
is rejected with "Expect ';' after value." at the `)`. -/
theorem c5_primary_leaves_cursor_on_right_paren :
    Parser.primary 50 { tokens := c5_tokens, current := 0 }
      = (Except.ok (Expr.grouping (Expr.literal (some (Literal.number 1)))),
         { tokens := c5_tokens, current := 2 })
    ∧ c5_tokens[2]? = some (opTok TokenType.RightParen ")")
    ∧ Parser.statement 80 { tokens := c5_tokens, current := 0 }
      = (Except.error (Failure.err (LoxError.parseError
          (opTok TokenType.RightParen ")") "Expect ';' after value.")),
         { tokens := c5_tokens, current := 2 }) :=
  ⟨rfl, rfl, rfl⟩

/-- C6. The claim says the ReturnValue unwind never surfaces to the driver,
even for a top-level `return`. The code refutes it: interpreting the
top-level statement `return 1;` ends in `Err(ReturnValue(1))`, and whenever
`interpret` ends in any `Err` — the ReturnValue variant included — `Lox::run`
receives it and sets `had_runtime_error`; nothing catches the unwind outside
a user-function call. -/
theorem c6_return_value_reaches_driver :
    (Interpreter.interpret 20 c6_program Interpreter.new).1
      = Except.error (Failure.err (LoxError.returnValue (Literal.number 1)))
    ∧ (∀ (fuel : Nat) (l : LoxSt) (source : List Char) (tokens : List Token)
        (stmts : List Stmt) (r : PState) (e : LoxError) (stI : InterpState),
        Scanner.scan_tokens_top fuel source = Except.ok tokens →
        Parser.parse fuel { tokens := tokens, current := 0 } = (Except.ok stmts, r) →
        Interpreter.interpret fuel stmts Interpreter.new
          = (Except.error (Failure.err e), stI) →
        Lox.run fuel l source
          = Except.ok ({ l with had_runtime_error := true }, stI.output)) :=
  ⟨rfl, fun fuel l source tokens stmts r e stI h1 h2 h3 => by simp [Lox.run, h1, h2, h3]⟩

/-- C7. The claim says every operand-variant combination outside the binary
table fails with a runtime error carrying the operator token and never
panics. The code refutes it: a Function operand combined with a Number
operand under `+` falls through every arm into `unreachable!()` — a panic,
not a runtime error — both at `visit_binary_expr` directly and for the
program `clock + 1;`. -/
theorem c7_function_operand_hits_unreachable :
    (Interpreter.visit_binary_expr 10
        (Expr.literal (some (Literal.function Callable.clock)))
        (opTok TokenType.Plus "+")
        (Expr.literal (some (Literal.number 1))) Interpreter.new).1
      = Except.error (Failure.crash "unreachable")
    ∧ (Interpreter.interpret 20 c7_program Interpreter.new).1
      = Except.error (Failure.crash "unreachable") :=
  ⟨rfl, rfl⟩

/-- C8. `for (init; cond; incr) body` desugars exactly as the claim states:
whenever the clause parsers succeed, `for_statement` returns
`Block{[init, While{cond-or-true, Block{[body, incr-as-expr-stmt]}}]}`, the
outer Block elided without an initializer, the literal `true` supplied
without a condition, and the body left unwrapped without an increment. -/
theorem c8_for_statement_desugaring
    (fuel : Nat) (st0 st1 st2 st3 st4 st5 : PState) (lp : Token)
    (initializer : Option Stmt) (condition increment : Option Expr) (body : Stmt)
    (h1 : Parser.consume TokenType.LeftParen "Expect '(' after 'for'." st0
      = (Except.ok lp, st1))
    (h2 : Parser.for_initializer fuel st1 = (Except.ok initializer, st2))
    (h3 : Parser.for_condition fuel st2 = (Except.ok condition, st3))
    (h4 : Parser.for_increment fuel st3 = (Except.ok increment, st4))
    (h5 : Parser.statement fuel st4 = (Except.ok body, st5)) :
    Parser.for_statement (fuel + 1) st0 =
      (Except.ok (match initializer, increment with
        | some init, some inc =>
          Stmt.block [init, Stmt.whileStmt
            (condition.getD (Expr.literal (some (Literal.bool true))))
            (Stmt.block [body, Stmt.expression inc])]
        | some init, none =>
          Stmt.block [init, Stmt.whileStmt
            (condition.getD (Expr.literal (some (Literal.bool true)))) body]
        | none, some inc =>
          Stmt.whileStmt (condition.getD (Expr.literal (some (Literal.bool true))))
            (Stmt.block [body, Stmt.expression inc])
        | none, none =>
          Stmt.whileStmt (condition.getD (Expr.literal (some (Literal.bool true))))
            body),
       st5) := by
  have hrun : Parser.for_statement (fuel + 1) st0 =
      (Except.ok (Parser.for_build initializer condition increment body), st5) := by
    simp [Parser.for_statement, PM.run_bind, PM.run_pure, h1, h2, h3, h4, h5]
  rw [hrun]
  rcases initializer with _ | init <;> rcases increment with _ | inc <;>
    rcases condition with _ | cond <;> rfl

/-- Witness for C8 at the concrete stream of `for (;;) print 1;` (all three
clauses elided): the result is the bare `While{true, print 1;}`. -/
theorem c8_for_statement_desugaring_witness :
    Parser.for_statement 31 { tokens := c8_tokens, current := 1 } =
      (Except.ok (Stmt.whileStmt (Expr.literal (some (Literal.bool true)))
        (Stmt.printStmt (Expr.literal (some (Literal.number 1))))),
       { tokens := c8_tokens, current := 8 }) :=
  c8_for_statement_desugaring 30
    { tokens := c8_tokens, current := 1 } { tokens := c8_tokens, current := 2 }
    { tokens := c8_tokens, current := 3 } { tokens := c8_tokens, current := 4 }
    { tokens := c8_tokens, current := 5 } { tokens := c8_tokens, current := 8 }
    (opTok TokenType.LeftParen "(") none none none
    (Stmt.printStmt (Expr.literal (some (Literal.number 1))))
    rfl rfl rfl rfl rfl

/-- C9. Logical expressions short-circuit exactly as the claim states: when
the left operand of `or` evaluates to a truthy value (or of a non-`or`
operator, i.e. `and`, to a falsy one), the result is the left value and the
state is exactly the state after evaluating the left operand — the right
operand contributes no effect; otherwise the expression continues as the
evaluation of the right operand in that state. -/
theorem c9_logical_short_circuit
    (fuel : Nat) (A B : Expr) (operator : Token) (st st1 : InterpState) (v : Literal)
    (h : Interpreter.evaluate fuel A st = (Except.ok v, st1)) :
    (operator.token_type = TokenType.Or → Interpreter.is_truthy v = true →
        Interpreter.evaluate (fuel + 2) (Expr.logical A operator B) st
          = (Except.ok v, st1))
    ∧ (operator.token_type ≠ TokenType.Or → Interpreter.is_truthy v = false →
        Interpreter.evaluate (fuel + 2) (Expr.logical A operator B) st
          = (Except.ok v, st1))
    ∧ (operator.token_type = TokenType.Or → Interpreter.is_truthy v = false →
        Interpreter.evaluate (fuel + 2) (Expr.logical A operator B) st
          = Interpreter.evaluate fuel B st1)
    ∧ (operator.token_type ≠ TokenType.Or → Interpreter.is_truthy v = true →
        Interpreter.evaluate (fuel + 2) (Expr.logical A operator B) st
          = Interpreter.evaluate fuel B st1) := by
  refine ⟨fun hop htr => ?_, fun hop htr => ?_, fun hop htr => ?_, fun hop htr => ?_⟩ <;>
  · show Interpreter.visit_logical_exp (fuel + 1) A operator B st = _
    simp [Interpreter.visit_logical_exp, PM.run_bind, PM.run_pure, h, hop, htr]

/-- Witness for C9: `true or 5` evaluates to `true` in the unchanged start
state — the right operand is never touched. -/
theorem c9_logical_short_circuit_witness :
    Interpreter.evaluate 3 (Expr.logical (Expr.literal (some (Literal.bool true)))
      (opTok TokenType.Or "or") (Expr.literal (some (Literal.number 5))))
      Interpreter.new = (Except.ok (Literal.bool true), Interpreter.new) :=
  (c9_logical_short_circuit 1 (Expr.literal (some (Literal.bool true)))
    (Expr.literal (some (Literal.number 5))) (opTok TokenType.Or "or")
    Interpreter.new Interpreter.new (Literal.bool true) rfl).1 rfl rfl

/-- C10. `Interpreter::new` builds globals holding exactly the one binding
`"clock" ↦ the native clock function` (with `environment` the same handle),
and `Lox::run` constructs that fresh interpreter on every call: its result
on any source is the clean-state result with the caller's two flags or-ed
in — so nothing defined while running one source is visible to a later call,
and the flags are the only fields of `Lox` that `run` mutates. -/
theorem c10_run_fresh_interpreter_and_flags_only :
    Interpreter.new.envs
      = [{ enclosing := none, values := [("clock", Literal.function Callable.clock)] }]
    ∧ Interpreter.new.globalsId = 0
    ∧ Interpreter.new.envId = 0
    ∧ (∀ (fuel : Nat) (l : LoxSt) (source : List Char),
        Lox.run fuel l source =
          match Lox.run fuel ⟨false, false⟩ source with
          | Except.error f => Except.error f
          | Except.ok (st, out) =>
            Except.ok (⟨l.had_error || st.had_error,
              l.had_runtime_error || st.had_runtime_error⟩, out)) := by
  refine ⟨rfl, rfl, rfl, fun fuel l source => ?_⟩
  unfold Lox.run
  cases h1 : Scanner.scan_tokens_top fuel source with
  | error f => rfl
  | ok tokens =>
    rcases h2 : Parser.parse fuel { tokens := tokens, current := 0 } with ⟨r2, st2⟩
    match r2 with
    | Except.error (Failure.err e) => simp [h2]
    | Except.error (Failure.crash m) => simp [h2]
    | Except.error Failure.fuelOut => simp [h2]
    | Except.ok stmts =>
      rcases h3 : Interpreter.interpret fuel stmts Interpreter.new with ⟨r3, st3⟩
      match r3 with
      | Except.error (Failure.err e) => simp [h2, h3]
      | Except.error (Failure.crash m) => simp [h2, h3]
      | Except.error Failure.fuelOut => simp [h2, h3]
      | Except.ok _ => simp [h2, h3]

end LoxSpec
